import Mathlib

/-!
Verification of the product inventory catalog browser.

The embedding translates, from the repository sources:
* the query-state model and its event handlers (`src/unnamed/part_000`,
  `src/src/App.tsx`, the FilterPanel handlers),
* the remote query compiler `fetchProducts` of both pages,
* the pagination arithmetic and controls (`src/src/components/Pagination.tsx`),
* the sort-header click handlers (ProductTable `handleSort` and the inline
  handler of `src/src/App.tsx`),
* the debounce primitive (`src/src/hooks/useDebounce.ts`) as a discrete
  timer-event semantics,
* the category enumeration fetch of `src/unnamed/part_000`.

The remote tabular data source (Supabase) is an external collaborator and is
modelled from the spec interface contract (predicates combined with AND,
single-key order, inclusive offset window, exact count).
-/

namespace Inventory

/-- Number of products per page, `ITEMS_PER_PAGE` from the sources. -/
def ITEMS_PER_PAGE : Nat := 10

/-- Sort direction: the `sortOrder` state is the string `asc` or `desc`. -/
inductive SortDir where
  | asc
  | desc
deriving DecidableEq

/-- Product row (`src/src/interface/product_interface.tsx`): `id`, `name`,
`category`, `created_at` are text; `price` is a decimal, modelled in `ℚ`;
`stock_quantity` is a non-negative integer. -/
structure Product where
  id : String
  name : String
  category : String
  price : ℚ
  stock_quantity : Nat
  created_at : String
deriving DecidableEq

/-- The user-adjustable query state: the eight `useState` fields driving a
fetch. In `src/unnamed/part_000` the `search`, `minPrice` and `maxPrice`
fields stand for the debounced values that the fetch actually reads. -/
structure QueryState where
  search : String
  category : String
  minPrice : String
  maxPrice : String
  inStockOnly : Bool
  sortBy : String
  sortOrder : SortDir
  page : Nat
deriving DecidableEq

/-- The mount defaults of the eight `useState` fields. -/
def initialQueryState : QueryState :=
  { search := "", category := "All", minPrice := "", maxPrice := "",
    inStockOnly := false, sortBy := "name", sortOrder := SortDir.asc, page := 1 }

/-- Numeric value of a list of decimal digit characters. -/
def digitsToNat (cs : List Char) : Nat :=
  cs.foldl (fun n c => n * 10 + (c.toNat - 48)) 0

/-- Decimal digit test on the character code. -/
def isDigitChar (c : Char) : Bool := 48 ≤ c.toNat && c.toNat ≤ 57

/-- Model of the JavaScript `parseFloat` on decimal notation: skip leading
whitespace, read an optional sign, then digits with an optional fractional
part; the longest such numeric head is the value and trailing text is
ignored. `none` stands for NaN, returned when no digit can be read. The
exponent form and the Infinity literal are outside the decimal notation the
number inputs of this app produce and are not modelled. -/
def parseFloatJS (s : String) : Option ℚ :=
  let cs := s.data.dropWhile (fun c => c.isWhitespace)
  let signed : Bool × List Char :=
    match cs with
    | '-' :: rest => (true, rest)
    | '+' :: rest => (false, rest)
    | _ => (false, cs)
  let intDigits := signed.2.takeWhile isDigitChar
  let afterInt := signed.2.dropWhile isDigitChar
  let fracDigits : List Char :=
    match afterInt with
    | '.' :: rest => rest.takeWhile isDigitChar
    | _ => []
  if intDigits.isEmpty && fracDigits.isEmpty then none
  else
    let v : ℚ :=
      (digitsToNat intDigits : ℚ) + (digitsToNat fracDigits : ℚ) / (10 ^ fracDigits.length)
    some (if signed.1 then -v else v)

/-- A compiled filter predicate of the query builder: `ilike` carries the
pattern the source passes (the search text wrapped in `%`), `eq` an exact
text match, `gte` and `lte` a numeric bound (NaN as `none`), `gt` a strict
integer lower bound. -/
inductive Pred where
  | ilike (col : String) (pat : String)
  | eq (col : String) (v : String)
  | gte (col : String) (v : Option ℚ)
  | lte (col : String) (v : Option ℚ)
  | gt (col : String) (v : Nat)
deriving DecidableEq

/-- The compiled request: exact-count mode, conjunction of predicates,
single-key order, and the inclusive row window `range(rangeFrom, rangeTo)`. -/
structure Request where
  countExact : Bool
  predicates : List Pred
  orderBy : String
  ascending : Bool
  rangeFrom : Nat
  rangeTo : Nat
deriving DecidableEq

/-- Lexicographic strict comparison of character lists by character code,
the order of text used by the model for text columns. -/
def strLtb : List Char → List Char → Bool
  | [], [] => false
  | [], _ :: _ => true
  | _ :: _, [] => false
  | a :: as, b :: bs =>
      if a.toNat < b.toNat then true
      else if b.toNat < a.toNat then false
      else strLtb as bs

/-- Non-strict text order derived from `strLtb`. -/
def strLe (a b : String) : Bool := !(strLtb b.data a.data)

/-- Lowercasing of a whole string, character by character, the model of
`toLowerCase` and of the case-folding done by `ilike`. -/
def lowerStr (s : String) : String := ⟨s.data.map Char.toLower⟩

/-- SQL `LIKE` pattern matching where `%` matches any character sequence;
the only metacharacter the compiled patterns use. -/
def likeMatch : List Char → List Char → Bool
  | [], [] => true
  | [], _ :: _ => false
  | '%' :: ps, ts =>
      likeMatch ps ts ||
        (match ts with
         | [] => false
         | _ :: ts2 => likeMatch ('%' :: ps) ts2)
  | _ :: _, [] => false
  | p :: ps, t :: ts => p == t && likeMatch ps ts
termination_by ps ts => (ps.length, ts.length)

/-- Evaluation of one compiled predicate on one product row, per the remote
interface contract: `ilike` is case-insensitive pattern match, `eq` exact
equality, `gte` and `lte` numeric comparisons (a NaN bound matches no row),
`gt` a strict bound on the stock count. Predicates on a column other than
the one they were compiled for never arise; they evaluate to false. -/
def evalPred (p : Product) : Pred → Bool
  | Pred.ilike c pat =>
      if c = "name" then likeMatch (lowerStr pat).data (lowerStr p.name).data else false
  | Pred.eq c v => if c = "category" then p.category == v else false
  | Pred.gte c v =>
      if c = "price" then
        match v with
        | some x => decide (x ≤ p.price)
        | none => false
      else false
  | Pred.lte c v =>
      if c = "price" then
        match v with
        | some x => decide (p.price ≤ x)
        | none => false
      else false
  | Pred.gt c v =>
      if c = "stock_quantity" then decide (v < p.stock_quantity) else false

/-- Row comparison on the named sort column, ascending. -/
def colLe (col : String) (a b : Product) : Bool :=
  if col = "name" then strLe a.name b.name
  else if col = "category" then strLe a.category b.category
  else if col = "price" then decide (a.price ≤ b.price)
  else if col = "stock_quantity" then decide (a.stock_quantity ≤ b.stock_quantity)
  else if col = "created_at" then strLe a.created_at b.created_at
  else true

/-- Page of records plus the exact total count, the decoded fetch result. -/
structure PageResult where
  records : List Product
  totalCount : Nat
deriving DecidableEq

/-- Modelled from the spec: the remote tabular data source executing one
compiled request — keep the rows satisfying every predicate (logical AND),
order them by the single sort key, return the inclusive window
`rangeFrom..rangeTo` of the ordered rows together with the exact count of
all matching rows, independent of the window. -/
def runQuery (db : List Product) (req : Request) : PageResult :=
  let matched := db.filter (fun p => req.predicates.all (evalPred p))
  let sorted := matched.insertionSort
    (fun a b => (if req.ascending then colLe req.orderBy a b else colLe req.orderBy b a) = true)
  { records := (sorted.drop req.rangeFrom).take (req.rangeTo + 1 - req.rangeFrom),
    totalCount := matched.length }

namespace InventoryPage

/-- The query compiled by `fetchProducts` of `src/unnamed/part_000`: exact
count, then conditionally `ilike` on the name with the pattern `%search%`,
category equality, `gte` and `lte` price bounds through `parseFloat`, a
strict stock bound, then the order key and the inclusive range
`(page-1)*ITEMS_PER_PAGE .. from+ITEMS_PER_PAGE-1`. -/
def fetchProductsQuery (s : QueryState) : Request :=
  { countExact := true,
    predicates :=
      (if s.search ≠ "" then [Pred.ilike "name" ("%" ++ s.search ++ "%")] else []) ++
      (if s.category ≠ "All" then [Pred.eq "category" s.category] else []) ++
      (if s.minPrice ≠ "" then [Pred.gte "price" (parseFloatJS s.minPrice)] else []) ++
      (if s.maxPrice ≠ "" then [Pred.lte "price" (parseFloatJS s.maxPrice)] else []) ++
      (if s.inStockOnly then [Pred.gt "stock_quantity" 0] else []),
    orderBy := s.sortBy,
    ascending := s.sortOrder == SortDir.asc,
    rangeFrom := (s.page - 1) * ITEMS_PER_PAGE,
    rangeTo := (s.page - 1) * ITEMS_PER_PAGE + ITEMS_PER_PAGE - 1 }

/-- The remote requests one invocation of `fetchProducts` awaits: the body
builds one query and performs a single `await query`. -/
def fetchRequests (s : QueryState) : List Request := [fetchProductsQuery s]

/-- Data state the fetch writes: `products`, `totalCount`, `loading`,
`error`. -/
structure DataState where
  products : List Product
  totalCount : Nat
  loading : Bool
  error : Option String
deriving DecidableEq

/-- Outcome of the awaited remote call: destructuring `{ data, count, error }`
either reports an error or yields a nullable row list and nullable count. -/
inductive FetchOutcome where
  | failure
  | success (data : Option (List Product)) (count : Option Nat)

/-- The fixed user-facing message set on any fetch failure. -/
def FETCH_ERROR_MESSAGE : String :=
  "Failed to load products. Please check your connection and try again."

/-- State transition of one `fetchProducts` run: `setLoading(true)` and
`setError(null)` first; on error, only the error message is set; on success
`data || []` and `count || 0` are stored; finally `setLoading(false)`. -/
def applyFetchOutcome (st : DataState) (o : FetchOutcome) : DataState :=
  let started : DataState := { st with loading := true, error := none }
  match o with
  | FetchOutcome.failure =>
      { started with error := some FETCH_ERROR_MESSAGE, loading := false }
  | FetchOutcome.success data count =>
      { started with
        products := data.getD [], totalCount := count.getD 0,
        loading := false }

/-- The request issued by the Retry control: `onRetry={fetchProducts}`
re-runs the same fetch over the unchanged state. -/
def retryRequest (s : QueryState) : Request := fetchProductsQuery s

/-- The `clearFilters` of `src/unnamed/part_000` (identical in
`src/src/App.tsx`): resets `search`, `category`, `minPrice`, `maxPrice`,
`inStockOnly` and `page`; the two sort fields are not touched. -/
def clearFilters (s : QueryState) : QueryState :=
  { s with
    search := "", category := "All", minPrice := "", maxPrice := "",
    inStockOnly := false, page := 1 }

end InventoryPage

namespace AppTsx

/-- The query compiled by the inline `fetchProducts` of `src/src/App.tsx`,
translated from its own lines 61-97; it reads the raw filter values where
`src/unnamed/part_000` reads the debounced ones. -/
def fetchProductsQuery (s : QueryState) : Request :=
  { countExact := true,
    predicates :=
      (if s.search ≠ "" then [Pred.ilike "name" ("%" ++ s.search ++ "%")] else []) ++
      (if s.category ≠ "All" then [Pred.eq "category" s.category] else []) ++
      (if s.minPrice ≠ "" then [Pred.gte "price" (parseFloatJS s.minPrice)] else []) ++
      (if s.maxPrice ≠ "" then [Pred.lte "price" (parseFloatJS s.maxPrice)] else []) ++
      (if s.inStockOnly then [Pred.gt "stock_quantity" 0] else []),
    orderBy := s.sortBy,
    ascending := s.sortOrder == SortDir.asc,
    rangeFrom := (s.page - 1) * ITEMS_PER_PAGE,
    rangeTo := (s.page - 1) * ITEMS_PER_PAGE + ITEMS_PER_PAGE - 1 }

/-- Replace the first space (JavaScript `replace` with a string pattern
replaces only the first occurrence). -/
def replaceFirstSpace : List Char → List Char
  | [] => []
  | c :: rest => if c = ' ' then '_' :: rest else c :: replaceFirstSpace rest

/-- The column computed from a header label in the inline header click
handler of `src/src/App.tsx`: `header.toLowerCase().replace(' ', '_')`. -/
def headerToCol (h : String) : String :=
  ⟨replaceFirstSpace (h.data.map Char.toLower)⟩

/-- The inline header click handler of `src/src/App.tsx` lines 218-223:
toggles the direction when the computed column equals the active sort field,
then stores the column, remapping `stock` to `stock_quantity`. -/
def onHeaderClick (s : QueryState) (header : String) : QueryState :=
  let col := headerToCol header
  { s with
    sortOrder :=
      if s.sortBy == col && s.sortOrder == SortDir.asc then SortDir.desc
      else SortDir.asc,
    sortBy :=
      if col == "stock" then "stock_quantity"
      else if col == "name" then "name" else col }

end AppTsx

namespace FilterPanel

/-- Search input `onChange`: `setSearch(value); setPage(1)`. -/
def onSearchChange (v : String) (s : QueryState) : QueryState :=
  { s with search := v, page := 1 }

/-- Category select `onChange`: `setCategory(value); setPage(1)`. -/
def onCategoryChange (v : String) (s : QueryState) : QueryState :=
  { s with category := v, page := 1 }

/-- Min price input `onChange`: `setMinPrice(value)` only. -/
def onMinPriceChange (v : String) (s : QueryState) : QueryState :=
  { s with minPrice := v }

/-- Max price input `onChange`: `setMaxPrice(value)` only. -/
def onMaxPriceChange (v : String) (s : QueryState) : QueryState :=
  { s with maxPrice := v }

/-- Stock checkbox `onChange`: `setInStockOnly(checked)` only. -/
def onInStockChange (b : Bool) (s : QueryState) : QueryState :=
  { s with inStockOnly := b }

/-- The category dropdown offers the `All` sentinel followed by the fetched
category list. -/
def categoryOptions (categories : List String) : List String :=
  "All" :: categories

end FilterPanel

namespace ProductTable

/-- The `handleSort` of ProductTable: toggle the direction when the clicked
column is the active sort field and it is ascending, else ascending; then
make the clicked column the sort field. -/
def handleSort (s : QueryState) (colKey : String) : QueryState :=
  { s with
    sortOrder :=
      if s.sortBy == colKey && s.sortOrder == SortDir.asc then SortDir.desc
      else SortDir.asc,
    sortBy := colKey }

end ProductTable

/-- Pages of results: `Math.ceil(totalCount / ITEMS_PER_PAGE)`, ceiling
division on naturals. -/
def totalPages (totalCount : Nat) : Nat :=
  (totalCount + ITEMS_PER_PAGE - 1) / ITEMS_PER_PAGE

namespace Pagination

/-- The previous button is disabled exactly when `page === 1`. -/
def prevDisabled (page : Nat) : Bool := page == 1

/-- The next button is disabled exactly when `page === totalPages`. -/
def nextDisabled (page tp : Nat) : Bool := page == tp

/-- The next button click: `setPage(p => p + 1)`. -/
def nextClick (page : Nat) : Nat := page + 1

/-- The previous button click: `setPage(p => p - 1)`. -/
def prevClick (page : Nat) : Nat := page - 1

end Pagination

/-- Discrete-event semantics of `useDebounce`: given the chronological list
of input changes as time-value pairs, each change cancels the pending timer
and arms a new one for its own time plus the delay; a timer fires when no
further change happens before it expires. The result lists the value
propagations as time-value pairs. -/
def debounceFires {α : Type} (delay : Nat) : List (Nat × α) → List (Nat × α)
  | [] => []
  | [(t, v)] => [(t + delay, v)]
  | (t, v) :: (t2, v2) :: rest =>
      if t2 < t + delay then debounceFires delay ((t2, v2) :: rest)
      else (t + delay, v) :: debounceFires delay ((t2, v2) :: rest)

namespace InventoryPage

/-- Insertion-order deduplication with a seen accumulator: the semantics of
the JavaScript `Set`, which keeps the first occurrence of each element. -/
def jsSetDedupAux (seen : List String) : List String → List String
  | [] => []
  | a :: l =>
      if a ∈ seen then jsSetDedupAux seen l else a :: jsSetDedupAux (a :: seen) l

/-- The deduplication `[...new Set(rows)]` used by `fetchCategories`. -/
def jsSetDedup (l : List String) : List String := jsSetDedupAux [] l

/-- The categories state after the one `fetchCategories` run: when the
response data is null nothing is stored and the previous list (initially
empty) stays; otherwise the rows are deduplicated through a `Set`. -/
def applyCategoriesOutcome (prev : List String) (data : Option (List String)) :
    List String :=
  match data with
  | none => prev
  | some rows => jsSetDedup rows

end InventoryPage

/-! ## Helper lemmas -/

/-- Membership in the accumulator-based deduplication: an element occurs in
the result exactly when it occurs in the input and not among the already
seen elements. -/
theorem mem_jsSetDedupAux (a : String) :
    ∀ (l seen : List String),
      a ∈ InventoryPage.jsSetDedupAux seen l ↔ a ∈ l ∧ a ∉ seen := by
  intro l
  induction l with
  | nil => simp [InventoryPage.jsSetDedupAux]
  | cons b l ih =>
    intro seen
    by_cases hb : b ∈ seen
    · simp only [InventoryPage.jsSetDedupAux, if_pos hb, ih, List.mem_cons]
      by_cases hab : a = b
      · subst hab; tauto
      · tauto
    · simp only [InventoryPage.jsSetDedupAux, if_neg hb, List.mem_cons, ih]
      by_cases hab : a = b
      · subst hab; tauto
      · tauto

/-- The deduplication never produces a repeated element. -/
theorem nodup_jsSetDedupAux :
    ∀ (l seen : List String), (InventoryPage.jsSetDedupAux seen l).Nodup := by
  intro l
  induction l with
  | nil => simp [InventoryPage.jsSetDedupAux]
  | cons b l ih =>
    intro seen
    by_cases hb : b ∈ seen
    · simpa [InventoryPage.jsSetDedupAux, if_pos hb] using ih seen
    · simp only [InventoryPage.jsSetDedupAux, if_neg hb, List.nodup_cons]
      refine ⟨fun hc => ?_, ih _⟩
      exact ((mem_jsSetDedupAux b l (b :: seen)).mp hc).2 (List.mem_cons_self b seen)

/-- The deduplication keeps elements in input order: it is a sublist. -/
theorem sublist_jsSetDedupAux :
    ∀ (l seen : List String), List.Sublist (InventoryPage.jsSetDedupAux seen l) l := by
  intro l
  induction l with
  | nil => simp [InventoryPage.jsSetDedupAux]
  | cons b l ih =>
    intro seen
    by_cases hb : b ∈ seen
    · simp only [InventoryPage.jsSetDedupAux, if_pos hb]
      exact (ih seen).trans (List.sublist_cons_self b l)
    · simp only [InventoryPage.jsSetDedupAux, if_neg hb]
      exact (ih (b :: seen)).cons₂ b

/-- The remote model returns at most the window length of the request. -/
theorem runQuery_records_length_le (db : List Product) (req : Request) :
    (runQuery db req).records.length ≤ req.rangeTo + 1 - req.rangeFrom := by
  simp only [runQuery]
  exact List.length_take_le _ _

/-- Every record the remote model returns satisfies every compiled
predicate: the predicates act as one conjunction. -/
theorem mem_runQuery_records {db : List Product} {req : Request} {p : Product}
    (hp : p ∈ (runQuery db req).records) :
    req.predicates.all (evalPred p) = true := by
  simp only [runQuery] at hp
  have h2 := List.mem_of_mem_drop (List.mem_of_mem_take hp)
  rw [List.mem_insertionSort] at h2
  exact (List.mem_filter.mp h2).2

/-! ## Claims -/

/-- C1: for every QueryState, `fetchProducts` of `src/unnamed/part_000`
compiles exactly the reference request — the case-insensitive name-contains
predicate is included iff `search` is non-empty, the category equality iff
`category` is not the All sentinel, the price bounds iff the respective text
is set, the strict stock predicate iff `inStockOnly`; predicates combine as
one conjunction (every returned record satisfies all of them); ordering is
single-key by the sort field and direction; the window is offset
`(page-1)*10` with limit 10; exactly one remote round trip is issued and at
most 10 records come back. -/
theorem C1_fetch_compiles_reference_request (s : QueryState) (db : List Product) :
    (Pred.ilike "name" ("%" ++ s.search ++ "%") ∈
        (InventoryPage.fetchProductsQuery s).predicates ↔ s.search ≠ "") ∧
    (Pred.eq "category" s.category ∈
        (InventoryPage.fetchProductsQuery s).predicates ↔ s.category ≠ "All") ∧
    (Pred.gte "price" (parseFloatJS s.minPrice) ∈
        (InventoryPage.fetchProductsQuery s).predicates ↔ s.minPrice ≠ "") ∧
    (Pred.lte "price" (parseFloatJS s.maxPrice) ∈
        (InventoryPage.fetchProductsQuery s).predicates ↔ s.maxPrice ≠ "") ∧
    (Pred.gt "stock_quantity" 0 ∈
        (InventoryPage.fetchProductsQuery s).predicates ↔ s.inStockOnly = true) ∧
    (∀ p ∈ (runQuery db (InventoryPage.fetchProductsQuery s)).records,
        (InventoryPage.fetchProductsQuery s).predicates.all (evalPred p) = true) ∧
    (InventoryPage.fetchProductsQuery s).orderBy = s.sortBy ∧
    ((InventoryPage.fetchProductsQuery s).ascending = true ↔
        s.sortOrder = SortDir.asc) ∧
    (InventoryPage.fetchProductsQuery s).rangeFrom = (s.page - 1) * ITEMS_PER_PAGE ∧
    (InventoryPage.fetchProductsQuery s).rangeTo + 1 -
        (InventoryPage.fetchProductsQuery s).rangeFrom = ITEMS_PER_PAGE ∧
    (InventoryPage.fetchProductsQuery s).countExact = true ∧
    (InventoryPage.fetchRequests s).length = 1 ∧
    (runQuery db (InventoryPage.fetchProductsQuery s)).records.length ≤
        ITEMS_PER_PAGE := by
  have hiffs :
      (Pred.ilike "name" ("%" ++ s.search ++ "%") ∈
          (InventoryPage.fetchProductsQuery s).predicates ↔ s.search ≠ "") ∧
      (Pred.eq "category" s.category ∈
          (InventoryPage.fetchProductsQuery s).predicates ↔ s.category ≠ "All") ∧
      (Pred.gte "price" (parseFloatJS s.minPrice) ∈
          (InventoryPage.fetchProductsQuery s).predicates ↔ s.minPrice ≠ "") ∧
      (Pred.lte "price" (parseFloatJS s.maxPrice) ∈
          (InventoryPage.fetchProductsQuery s).predicates ↔ s.maxPrice ≠ "") ∧
      (Pred.gt "stock_quantity" 0 ∈
          (InventoryPage.fetchProductsQuery s).predicates ↔ s.inStockOnly = true) := by
    simp only [InventoryPage.fetchProductsQuery]
    split_ifs <;> simp_all
  refine ⟨hiffs.1, hiffs.2.1, hiffs.2.2.1, hiffs.2.2.2.1, hiffs.2.2.2.2,
    fun p hp => mem_runQuery_records hp, rfl, ?_, rfl, ?_, rfl, rfl, ?_⟩
  · simp [InventoryPage.fetchProductsQuery]
  · simp only [InventoryPage.fetchProductsQuery, ITEMS_PER_PAGE]
    omega
  · refine (runQuery_records_length_le db _).trans ?_
    simp only [InventoryPage.fetchProductsQuery, ITEMS_PER_PAGE]
    omega

/-- C2 counterexample: the min-price setter does not reset the page — from
page 4, entering a min price leaves the page at 4, refuting that every
filter setter results in page 1. -/
theorem C2_price_setter_keeps_page_counterexample :
    (FilterPanel.onMinPriceChange "5"
      { initialQueryState with page := 4 }).page ≠ 1 := by decide

/-- C2 amended: the search and category setters reset the page to 1; the
min-price, max-price and in-stock setters leave the page unchanged; the
sort setter leaves the page unchanged. -/
theorem C2_setters_page_behavior (s : QueryState) (v : String) (b : Bool)
    (c : String) :
    (FilterPanel.onSearchChange v s).page = 1 ∧
    (FilterPanel.onCategoryChange v s).page = 1 ∧
    (FilterPanel.onMinPriceChange v s).page = s.page ∧
    (FilterPanel.onMaxPriceChange v s).page = s.page ∧
    (FilterPanel.onInStockChange b s).page = s.page ∧
    (ProductTable.handleSort s c).page = s.page :=
  ⟨rfl, rfl, rfl, rfl, rfl, rfl⟩

/-- C3 counterexample: at `totalCount = 0` the displayed page total is 0,
not 1, and the next control is not disabled (it is disabled only when
`page === totalPages`, and 1 is not 0). -/
theorem C3_zero_count_counterexample :
    totalPages 0 ≠ 1 ∧ Pagination.nextDisabled 1 (totalPages 0) = false := by
  decide

/-- C3 amended: `totalPages` is the ceiling of `totalCount / 10`; at
`totalCount = 0` it is 0 and is displayed as 0; the next control is
disabled exactly when `page = totalPages`, hence enabled at page 1 with an
empty result, and clicking it moves the page to 2; the previous control is
disabled at page 1. -/
theorem C3_pagination_arithmetic (n page : Nat) :
    n ≤ ITEMS_PER_PAGE * totalPages n ∧
    ITEMS_PER_PAGE * totalPages n < n + ITEMS_PER_PAGE ∧
    totalPages 0 = 0 ∧
    (Pagination.nextDisabled page (totalPages n) = true ↔ page = totalPages n) ∧
    Pagination.nextDisabled 1 (totalPages 0) = false ∧
    Pagination.nextClick 1 = 2 ∧
    Pagination.prevDisabled 1 = true := by
  refine ⟨?_, ?_, by decide, ?_, by decide, rfl, rfl⟩
  · simp only [totalPages, ITEMS_PER_PAGE]; omega
  · simp only [totalPages, ITEMS_PER_PAGE]; omega
  · simp [Pagination.nextDisabled]

/-- C4: `clearFilters` does not reset the sort fields, although its own doc
comment in `src/src/App.tsx` says it resets all filter and sort states —
after sorting by price descending on page 4, clearing resets the filters
and the page but keeps the descending price sort. -/
theorem C4_clear_all_keeps_sort :
    InventoryPage.clearFilters
        { search := "x", category := "Books", minPrice := "5", maxPrice := "9",
          inStockOnly := true, sortBy := "price", sortOrder := SortDir.desc,
          page := 4 } =
      { search := "", category := "All", minPrice := "", maxPrice := "",
        inStockOnly := false, sortBy := "price", sortOrder := SortDir.desc,
        page := 1 } ∧
    (InventoryPage.clearFilters
        { search := "x", category := "Books", minPrice := "5", maxPrice := "9",
          inStockOnly := true, sortBy := "price", sortOrder := SortDir.desc,
          page := 4 }).sortBy ≠ initialQueryState.sortBy := by decide

/-- C5 counterexample: a non-empty min price that does not parse to a
finite number still compiles a price bound predicate — its value is NaN —
rather than no predicate. -/
theorem C5_malformed_price_counterexample :
    Pred.gte "price" none ∈
      (InventoryPage.fetchProductsQuery
        { initialQueryState with minPrice := "abc" }).predicates := by decide

/-- C5 amended: every non-empty min-price or max-price text compiles the
corresponding price bound predicate with value `parseFloat` of the text —
NaN when the text does not parse to a finite number — and the fetch is
still issued without any client-side validation error. -/
theorem C5_malformed_price_predicate (s : QueryState)
    (hmin : s.minPrice ≠ "") (hmax : s.maxPrice ≠ "") :
    Pred.gte "price" (parseFloatJS s.minPrice) ∈
      (InventoryPage.fetchProductsQuery s).predicates ∧
    Pred.lte "price" (parseFloatJS s.maxPrice) ∈
      (InventoryPage.fetchProductsQuery s).predicates ∧
    (InventoryPage.fetchRequests s).length = 1 := by
  refine ⟨?_, ?_, rfl⟩ <;> simp [InventoryPage.fetchProductsQuery, hmin, hmax]

/-- C5 witness: the amended statement applied at a malformed min price. -/
theorem C5_malformed_price_predicate_witness :
    (("abc" : String) ≠ "") ∧
    Pred.gte "price" (parseFloatJS "abc") ∈
      (InventoryPage.fetchProductsQuery
        { initialQueryState with minPrice := "abc", maxPrice := "9x" }).predicates :=
  ⟨by decide,
   (C5_malformed_price_predicate
      { initialQueryState with minPrice := "abc", maxPrice := "9x" }
      (by decide) (by decide)).1⟩

/-- C6: a failed fetch sets the error to exactly the fixed message and
leaves the products and total count untouched; a successful fetch decodes a
null row list to the empty sequence and a null count to 0, stores returned
data as is, and clears the error; retry re-issues the identical compiled
query for the unchanged state. -/
theorem C6_fetch_error_handling (st : InventoryPage.DataState)
    (rows : List Product) (n : Nat) (s : QueryState) :
    (InventoryPage.applyFetchOutcome st InventoryPage.FetchOutcome.failure).error =
        some InventoryPage.FETCH_ERROR_MESSAGE ∧
    (InventoryPage.applyFetchOutcome st InventoryPage.FetchOutcome.failure).products =
        st.products ∧
    (InventoryPage.applyFetchOutcome st InventoryPage.FetchOutcome.failure).totalCount =
        st.totalCount ∧
    (InventoryPage.applyFetchOutcome st
        (InventoryPage.FetchOutcome.success none none)).products = [] ∧
    (InventoryPage.applyFetchOutcome st
        (InventoryPage.FetchOutcome.success none none)).totalCount = 0 ∧
    (InventoryPage.applyFetchOutcome st
        (InventoryPage.FetchOutcome.success (some rows) (some n))).products = rows ∧
    (InventoryPage.applyFetchOutcome st
        (InventoryPage.FetchOutcome.success (some rows) (some n))).totalCount = n ∧
    (InventoryPage.applyFetchOutcome st
        (InventoryPage.FetchOutcome.success (some rows) (some n))).error = none ∧
    InventoryPage.retryRequest s = InventoryPage.fetchProductsQuery s :=
  ⟨rfl, rfl, rfl, rfl, rfl, rfl, rfl, rfl, rfl⟩

/-- C7: in the inline header handler of `src/src/App.tsx` the Stock column
cannot toggle — the handler compares the active sort field against the
unmapped label `stock` while storing `stock_quantity`, so when the stock
column is active, clicking its header keeps ascending instead of toggling
to descending; the first click from the defaults does reach that state. -/
theorem C7_stock_header_no_toggle :
    (AppTsx.onHeaderClick
        { initialQueryState with sortBy := "stock_quantity" } "Stock").sortOrder =
      SortDir.asc ∧
    (AppTsx.onHeaderClick
        { initialQueryState with sortBy := "stock_quantity" } "Stock").sortBy =
      "stock_quantity" ∧
    AppTsx.onHeaderClick initialQueryState "Stock" =
      { initialQueryState with sortBy := "stock_quantity" } := by decide

/-- C8: for a burst of input changes in which every change arrives within
less than the quiet period of the previous one, the debounce propagates
exactly one value — the final one of the burst — and it fires exactly one
quiet period after the last change, hence no earlier; no intermediate value
is ever propagated. -/
theorem C8_debounce_burst {α : Type} (delay : Nat) (changes : List (Nat × α))
    (h : changes ≠ [])
    (hburst : changes.Chain' (fun p q => q.1 < p.1 + delay)) :
    debounceFires delay changes =
      [((changes.getLast h).1 + delay, (changes.getLast h).2)] := by
  induction changes with
  | nil => exact absurd rfl h
  | cons x xs ih =>
    cases xs with
    | nil =>
      obtain ⟨t, v⟩ := x
      simp [debounceFires]
    | cons y ys =>
      obtain ⟨t, v⟩ := x
      obtain ⟨t2, v2⟩ := y
      have hy : t2 < t + delay := (List.chain'_cons.mp hburst).1
      have hch : ((t2, v2) :: ys).Chain' (fun p q => q.1 < p.1 + delay) :=
        (List.chain'_cons.mp hburst).2
      have hne : ((t2, v2) :: ys) ≠ ([] : List (Nat × α)) := by simp
      simp only [debounceFires, if_pos hy]
      rw [ih hne hch]
      simp [List.getLast_cons]

/-- C8 witness: a three-change burst with 400 ms quiet period propagates
only the last value, 400 ms after the last change. -/
theorem C8_debounce_burst_witness :
    (([(0, 10), (100, 20), (300, 30)] : List (Nat × Nat)) ≠ []) ∧
    debounceFires 400 ([(0, 10), (100, 20), (300, 30)] : List (Nat × Nat)) =
      [(700, 30)] :=
  ⟨by decide,
   C8_debounce_burst 400 [(0, 10), (100, 20), (300, 30)] (by decide)
     (List.Chain.cons (by decide) (List.Chain.cons (by decide) List.Chain.nil))⟩

/-- C9: given the rows of the one category fetch arrive ordered ascending
(the query orders by category), the stored category list is sorted,
duplicate-free and has exactly the categories present in the data; when the
fetch yields no data, nothing is stored and the dropdown offers only the
All sentinel. -/
theorem C9_category_enumeration (rows : List String)
    (h : rows.Pairwise (fun a b => strLe a b = true)) :
    (InventoryPage.applyCategoriesOutcome [] (some rows)).Pairwise
        (fun a b => strLe a b = true) ∧
    (InventoryPage.applyCategoriesOutcome [] (some rows)).Nodup ∧
    (∀ a, a ∈ InventoryPage.applyCategoriesOutcome [] (some rows) ↔ a ∈ rows) ∧
    InventoryPage.applyCategoriesOutcome [] none = [] ∧
    FilterPanel.categoryOptions (InventoryPage.applyCategoriesOutcome [] none) =
      ["All"] := by
  refine ⟨List.Pairwise.sublist (sublist_jsSetDedupAux rows []) h,
    nodup_jsSetDedupAux rows [], fun a => ?_, rfl, rfl⟩
  simpa using mem_jsSetDedupAux a rows []

/-- C9 witness: the enumeration applied to a small sorted row list. -/
theorem C9_category_enumeration_witness :
    (["a", "a", "b"] : List String).Pairwise (fun a b => strLe a b = true) ∧
    (InventoryPage.applyCategoriesOutcome [] (some ["a", "a", "b"])).Nodup :=
  ⟨by decide, (C9_category_enumeration ["a", "a", "b"] (by decide)).2.1⟩

/-- C10: for every assignment of the eight query fields, the inline
`fetchProducts` of `src/src/App.tsx` and the `fetchProducts` of
`src/unnamed/part_000` compile the same remote request — the same
predicates, ordering, window and count mode. -/
theorem C10_fetch_compilers_equivalent (s : QueryState) :
    AppTsx.fetchProductsQuery s = InventoryPage.fetchProductsQuery s := rfl

end Inventory
